import Mathlib

/-!
Verification development for the protein-protein interaction analysis workflow.

The embedding covers the two core pipelines of the repository:

* `06_compare_structures.py`: `calculate_rmsd`, `parse_arpeggio_interactions`,
  `compare_interactions`, and the per-type ordering used by
  `generate_comparison_report`;
* `04_analyze_interactions.py`: `extract_interactions` and the distance
  statistics of `analyze_interactions`.

JSON values decoded by `json.load` are modelled by the mutual inductive
`JValue`/`JList`/`JObj` below (a JSON array is a `JList`, a JSON object is a
`JObj` holding its items in insertion order with distinct keys).  Python
strings are Lean `String`s; Python floats are modelled by `ℚ`.  External
library calls (`Bio.PDB.PDBParser.get_structure`, `Bio.PDB.Superimposer`) are
modelled by their outcomes, passed to `calculate_rmsd` as arguments: a
raised exception is an `Except.error` carrying `str(e)`.
-/

deriving instance DecidableEq for Except

mutual

inductive JValue where
  | str (s : String)
  | num (q : ℚ)
  | jbool (b : Bool)
  | null
  | arr (elems : JList)
  | obj (fields : JObj)
deriving DecidableEq

inductive JList where
  | nil
  | cons (v : JValue) (tail : JList)
deriving DecidableEq

inductive JObj where
  | nil
  | cons (k : String) (v : JValue) (tail : JObj)
deriving DecidableEq

end

/-- Convert a modelled JSON array to a Lean list of its elements. -/
def JList.toList : JList → List JValue
  | .nil => []
  | .cons v tail => v :: tail.toList

/-- Build a modelled JSON array from a Lean list. -/
def JList.ofList : List JValue → JList
  | [] => .nil
  | v :: rest => .cons v (JList.ofList rest)

/-- Python `d[k]` / `d.get(k)` on a decoded JSON object: first (hence, for the
distinct keys produced by `json.load`, only) binding of the key. -/
def jGet : JObj → String → Option JValue
  | .nil, _ => none
  | .cons k v rest, key => if k = key then some v else jGet rest key

/-- Python truthiness of a decoded JSON value (`if distance:`, `if pred_set:`):
zero numbers, empty strings, `False`, `None`, empty arrays and empty objects
are falsy. -/
def jTruthy : JValue → Bool
  | .num q => if q = 0 then false else true
  | .str s => if s = "" then false else true
  | .jbool b => b
  | .null => false
  | .arr l => match l with | .nil => false | _ => true
  | .obj o => match o with | .nil => false | _ => true

/-- Fold a decimal digit string into a natural number; `none` on a
non-digit. -/
def digitsToNat (acc : ℕ) : List Char → Option ℕ
  | [] => some acc
  | c :: cs => if c.isDigit then digitsToNat (acc * 10 + (c.toNat - 48)) cs else none

/-- Unsigned decimal literal accepted by Python `float()`:
`digits`, `digits.digits`, `digits.` or `.digits`. Exponent and
`inf`/`nan` forms are not modelled (they never occur in Arpeggio output). -/
def parseUnsignedDec (l : List Char) : Option ℚ :=
  let intPart := l.takeWhile (fun c => ¬ (c = '.'))
  match l.dropWhile (fun c => ¬ (c = '.')) with
  | [] =>
    if intPart = [] then none
    else (digitsToNat 0 intPart).map (fun n => (n : ℚ))
  | _ :: frac =>
    if frac.contains '.' then none
    else if intPart = [] ∧ frac = [] then none
    else
      match (if intPart = [] then some 0 else digitsToNat 0 intPart),
            (if frac = [] then some 0 else digitsToNat 0 frac) with
      | some ip, some fp => some ((ip : ℚ) + mkRat fp (10 ^ frac.length))
      | _, _ => none

/-- Signed decimal literal accepted by Python `float()`. -/
def parseSignedDec (l : List Char) : Option ℚ :=
  match l with
  | '-' :: rest => (parseUnsignedDec rest).map (fun q => -q)
  | '+' :: rest => parseUnsignedDec rest
  | _ => parseUnsignedDec l

/-- Python's `float(x)` on a decoded JSON value: `none` models a raised
`ValueError`/`TypeError`. Strings are stripped of surrounding spaces first. -/
def pyFloat : JValue → Option ℚ
  | .num q => some q
  | .jbool b => some (if b then 1 else 0)
  | .str s =>
      parseSignedDec (((s.data.dropWhile (fun c => c = ' ')).reverse.dropWhile
        (fun c => c = ' ')).reverse)
  | _ => none

/-- Python `s.strip('/')` on the character list of a string. -/
def stripSlashes (l : List Char) : List Char :=
  ((l.dropWhile (fun c => c = '/')).reverse.dropWhile (fun c => c = '/')).reverse

/-- Python `s.split('/')`: splitting the empty string gives `[[]]`, and
consecutive separators give empty segments, exactly as in Python. -/
def splitOnSlash : List Char → List (List Char)
  | [] => [[]]
  | c :: cs =>
    if c = '/' then [] :: splitOnSlash cs
    else
      match splitOnSlash cs with
      | [] => [[c]]
      | w :: ws => (c :: w) :: ws

/-- `atom_key.strip('/').split('/')` from both parsers. -/
def splitKey (s : String) : List String :=
  (splitOnSlash (stripSlashes s.data)).map (fun cs => String.mk cs)

/-- Python `<` on strings: lexicographic comparison of code points. -/
def charListLt : List Char → List Char → Bool
  | [], [] => false
  | [], _ :: _ => true
  | _ :: _, [] => false
  | a :: as, b :: bs =>
    if a.toNat < b.toNat then true
    else if b.toNat < a.toNat then false
    else charListLt as bs

/-- Python `a < b` on strings. -/
def strLtB (a b : String) : Bool := charListLt a.data b.data

/-- Python `tuple(sorted([a, b]))`: the stable two-element sort swaps exactly
when `b < a`. -/
def sortedPair (a b : String) : String × String :=
  if strLtB b a then (b, a) else (a, b)

/-- Run a fallible per-element extraction over a list, concatenating the
results in order; the first raised exception aborts the whole run.  This is
the shape of every `for` loop in the two parsers: each iteration either
appends records, contributes nothing (`continue`), or raises. -/
def flatE {α β : Type} (f : α → Except String (List β)) : List α → Except String (List β)
  | [] => .ok []
  | a :: rest => do
    let h ← f a
    let t ← flatE f rest
    .ok (h ++ t)

/-! ## `06_compare_structures.py`: `parse_arpeggio_interactions` (lines 123-171)

The function returns a pair `(interactions, dict(interaction_types))`; the
second component is a `Counter` tally of the `type` components of the first
and is not consumed by any claim, so only the interaction list is modelled.
An interaction is the Python tuple `tuple(sorted([res1, res2])) + (itype,)`:
the `type` tag is stored exactly as found in the JSON (default
`'unknown'`). -/

/-- The interaction triple built at line 167 of `06_compare_structures.py`. -/
abbrev Interaction06 := String × String × JValue

/-- The body of the inner `for contact in contacts` loop (lines 152-169):
skip non-dict contacts, default `bgn_atom` to `''` and `type` to
`'unknown'`, skip contacts whose partner path has fewer than 4 segments,
otherwise emit one sorted interaction triple.  A non-string `bgn_atom`
makes `bgn_atom.strip('/')` raise `AttributeError`, which the function does
not catch. -/
def parseContact06 (res1 : String) (c : JValue) : Except String (List Interaction06) :=
  match c with
  | .obj o =>
    let itype := (jGet o "type").getD (.str "unknown")
    match (jGet o "bgn_atom").getD (.str "") with
    | .str s =>
      match splitKey s with
      | chain2 :: resnum2 :: resname2 :: _ :: _ =>
        let res2 := chain2 ++ ":" ++ resname2 ++ resnum2
        let p := sortedPair res1 res2
        .ok [(p.1, p.2, itype)]
      | _ => .ok []
    | _ => .error "AttributeError: bgn_atom has no attribute strip"
  | _ => .ok []

/-- The body of the outer `for atom_key, atom_data in data.items()` loop
(lines 136-169): skip values that are not dicts or have no `contact` field,
skip keys with fewer than 4 path segments, otherwise run the contact loop
on `atom_data['contact']` (a single object is wrapped into a one-element
list, line 149-150). -/
def parseEntry06 (k : String) (v : JValue) : Except String (List Interaction06) :=
  match v with
  | .obj o =>
    match jGet o "contact" with
    | none => .ok []
    | some c =>
      match splitKey k with
      | chain1 :: resnum1 :: resname1 :: _ :: _ =>
        let res1 := chain1 ++ ":" ++ resname1 ++ resnum1
        let contacts := match c with | .arr l => l.toList | x => [x]
        flatE (parseContact06 res1) contacts
      | _ => .ok []
  | _ => .ok []

/-- `parse_arpeggio_interactions` over the decoded top-level contact map,
modelled as the object's items in insertion order. -/
def parse_arpeggio_interactions (data : List (String × JValue)) :
    Except String (List Interaction06) :=
  flatE (fun kv => parseEntry06 kv.1 kv.2) data

/-! ## `06_compare_structures.py`: `calculate_rmsd` (lines 54-120)

BioPython structures are modelled by the traversal the function performs:
models, each a list of chains, each a list of residues; a residue carries
its `is_aa` classification and its named atoms (coordinates as `ℚ`
triples).  `parser.get_structure` and `Superimposer` are external calls,
modelled by their outcomes (`Except.error` = raised exception). -/

/-- A 3D atomic coordinate. -/
abbrev Point := ℚ × ℚ × ℚ

/-- A BioPython residue as `calculate_rmsd` consumes it: its standard
amino-acid classification (`PDB.is_aa`) and its child atoms as a
name-to-coordinate association (`'CA' in residue`, `residue['CA']`,
`for atom in residue`). -/
structure Residue where
  is_aa : Bool
  atoms : List (String × Point)
deriving DecidableEq

/-- A chain is its residues in file order. -/
abbrev SChain := List Residue

/-- A model is its chains in file order. -/
abbrev SModel := List SChain

/-- A parsed structure is its models in file order. -/
abbrev PDBStructure := List SModel

/-- Association-list lookup, modelling `residue['CA']` on a residue's child
dictionary (child ids are unique). -/
def atomLookup : List (String × Point) → String → Option Point
  | [], _ => none
  | (k, p) :: rest, key => if k = key then some p else atomLookup rest key

/-- Loop-free concatenation of per-element contributions, the shape of the
atom-collecting `for` loops of lines 80-98. -/
def flatL {α β : Type} (f : α → List β) : List α → List β
  | [] => []
  | a :: rest => f a ++ flatL f rest

/-- Lines 83-88 / 93-98: a residue's contribution to the atom list.  For
`atom_type == 'CA'` a residue contributes its Cα atom if it has one (the
`elif` branch is then unreachable); for `atom_type == 'all'` it contributes
every atom in record order; non-amino-acid residues contribute nothing. -/
def residueAtoms (atom_type : String) (r : Residue) : List Point :=
  if r.is_aa then
    if atom_type = "CA" then
      match atomLookup r.atoms "CA" with
      | some p => [p]
      | none => []
    else if atom_type = "all" then r.atoms.map Prod.snd
    else []
  else []

/-- Lines 80-98: extract the ordered atom sequence of a structure
(model → chain → residue traversal, in file order). -/
def extractAtoms (s : PDBStructure) (atom_type : String) : List Point :=
  flatL (fun m => flatL (fun c => flatL (residueAtoms atom_type) c) m) s

/-- The dict returned by `calculate_rmsd`: `atom_type` and `error` model the
optional keys of the returned dict (`none` = key absent). -/
structure RmsdResult where
  rmsd : ℚ
  n_atoms : ℕ
  atom_type : Option String
  error : Option String
deriving DecidableEq

/-- The `try` block of lines 72-117, after both files parsed: extract both
atom sequences, truncate both to `n_atoms = min` of the lengths, return the
degraded dict when `n_atoms == 0`, otherwise superimpose the two prefixes
(`set_atoms(exp_atoms, pred_atoms)` then `.rms`).  `superimpose` models the
`Superimposer` call; its `Except.error` is a raised numerical exception. -/
def alignTry (pred_structure exp_structure : PDBStructure)
    (superimpose : List Point → List Point → Except String ℚ)
    (atom_type : String) : Except String RmsdResult :=
  let pred_atoms := extractAtoms pred_structure atom_type
  let exp_atoms := extractAtoms exp_structure atom_type
  let n_atoms := min pred_atoms.length exp_atoms.length
  if n_atoms = 0 then .ok ⟨0, 0, none, some "No matching atoms"⟩
  else
    match superimpose (exp_atoms.take n_atoms) (pred_atoms.take n_atoms) with
    | .ok r => .ok ⟨r, n_atoms, some atom_type, none⟩
    | .error e => .error e

/-- `calculate_rmsd` (lines 54-120).  `biopython_available` is the module
constant `BIOPYTHON_AVAILABLE` probed once at import (lines 45-51);
`parsed_predicted` / `parsed_experimental` are the outcomes of the two
`parser.get_structure` calls (lines 73-74).  The `except Exception` clause
of lines 119-120 turns any exception raised inside the `try` block into the
degraded dict `{'rmsd': 0.0, 'n_atoms': 0, 'error': str(e)}`. -/
def calculate_rmsd (biopython_available : Bool)
    (parsed_predicted parsed_experimental : Except String PDBStructure)
    (superimpose : List Point → List Point → Except String ℚ)
    (atom_type : String) : RmsdResult :=
  if biopython_available then
    match (do
      let ps ← parsed_predicted
      let es ← parsed_experimental
      alignTry ps es superimpose atom_type : Except String RmsdResult) with
    | .ok res => res
    | .error e => ⟨0, 0, none, some e⟩
  else ⟨0, 0, none, some "BioPython not available"⟩

/-! ## `06_compare_structures.py`: `compare_interactions` (lines 174-248) -/

/-- `interaction[2]`, the type tag of an interaction triple. -/
def interType (i : Interaction06) : JValue := i.2.2

/-- Lines 194-207: the per-type grouping `pred_by_type` builds, for each
type, the set of interaction triples of the input list carrying that type
(grouping a list into per-key sets is exactly filtering then set-ifying). -/
def typedSet (l : List Interaction06) (t : JValue) : Finset Interaction06 :=
  (l.filter (fun i => decide (interType i = t))).toFinset

/-- Line 211: `all_types = set(pred_by_type.keys()) | set(exp_by_type.keys())`,
the types appearing in either input list. -/
def allTypes (pred_interactions exp_interactions : List Interaction06) : Finset JValue :=
  (pred_interactions.map interType).toFinset ∪ (exp_interactions.map interType).toFinset

/-- The eight per-type numbers of lines 225-234. -/
structure TypeMetrics where
  predicted : ℕ
  experimental : ℕ
  tp : ℕ
  fp : ℕ
  fn : ℕ
  precision : ℚ
  recall' : ℚ
  f1 : ℚ
deriving DecidableEq

/-- The overall block of lines 237-246. -/
structure OverallMetrics where
  predicted_total : ℕ
  experimental_total : ℕ
  true_positives : ℕ
  false_positives : ℕ
  false_negatives : ℕ
  precision : ℚ
  recall' : ℚ
  f1_score : ℚ
deriving DecidableEq

/-- Lines 181-191: overall metrics on the de-duplicated sets.  Python's
`if pred_set` is nonemptiness, written here as a test against `∅`. -/
def overallOf (pred_interactions exp_interactions : List Interaction06) : OverallMetrics :=
  let pred_set := pred_interactions.toFinset
  let exp_set := exp_interactions.toFinset
  let tp := (pred_set ∩ exp_set).card
  let fp := (pred_set \ exp_set).card
  let fn := (exp_set \ pred_set).card
  let precision : ℚ := if pred_set = ∅ then 0 else (tp : ℚ) / (pred_set.card : ℚ)
  let recall' : ℚ := if exp_set = ∅ then 0 else (tp : ℚ) / (exp_set.card : ℚ)
  let f1 : ℚ :=
    if 0 < precision + recall' then 2 * precision * recall' / (precision + recall') else 0
  ⟨pred_set.card, exp_set.card, tp, fp, fn, precision, recall', f1⟩

/-- Lines 213-234: the per-type metrics for one type. -/
def typeMetricsOf (pred_interactions exp_interactions : List Interaction06)
    (t : JValue) : TypeMetrics :=
  let pred_type := typedSet pred_interactions t
  let exp_type := typedSet exp_interactions t
  let tp_type := (pred_type ∩ exp_type).card
  let fp_type := (pred_type \ exp_type).card
  let fn_type := (exp_type \ pred_type).card
  let prec_type : ℚ := if pred_type = ∅ then 0 else (tp_type : ℚ) / (pred_type.card : ℚ)
  let rec_type : ℚ := if exp_type = ∅ then 0 else (tp_type : ℚ) / (exp_type.card : ℚ)
  let f1_type : ℚ :=
    if 0 < prec_type + rec_type then 2 * prec_type * rec_type / (prec_type + rec_type) else 0
  ⟨pred_type.card, exp_type.card, tp_type, fp_type, fn_type, prec_type, rec_type, f1_type⟩

/-- The dict returned by `compare_interactions`: the `by_type` dict has key
set `all_types` and value `typeMetricsOf` at each key (keys outside
`all_types` do not occur in the Python dict). -/
structure ComparisonResult where
  overall : OverallMetrics
  type_keys : Finset JValue
  by_type : JValue → TypeMetrics

/-- `compare_interactions` (lines 174-248). -/
def compare_interactions (pred_interactions exp_interactions : List Interaction06) :
    ComparisonResult :=
  ⟨overallOf pred_interactions exp_interactions,
   allTypes pred_interactions exp_interactions,
   typeMetricsOf pred_interactions exp_interactions⟩

/-! ## `06_compare_structures.py`: per-type ordering in
`generate_comparison_report` (lines 314-315)

`sorted(interaction_comparison['by_type'].items(), key=lambda x:
x[1]['predicted'], reverse=True)` is CPython's stable sort, descending on
the `predicted` count only; elements with equal keys keep the order of the
input enumeration.  The input enumeration is the `by_type` dict's insertion
order, i.e. the iteration order of the Python *set* `all_types`, which is
unspecified (string hashing is randomized per process).  The sort is
modelled as the stable descending insertion sort over an arbitrary
enumeration of the dict's items. -/

/-- The sort key relation: `x` may come before `y` iff `x`'s predicted count
is at least `y`'s. -/
def byPredDesc (x y : JValue × TypeMetrics) : Prop :=
  y.2.predicted ≤ x.2.predicted

instance : DecidableRel byPredDesc := fun x y => Nat.decLe y.2.predicted x.2.predicted

instance : IsTotal (JValue × TypeMetrics) byPredDesc :=
  ⟨fun x y => Nat.le_total y.2.predicted x.2.predicted⟩

instance : IsTrans (JValue × TypeMetrics) byPredDesc :=
  ⟨fun _ _ _ h1 h2 => Nat.le_trans h2 h1⟩

/-- The report's `sorted(..., key=lambda x: x[1]['predicted'], reverse=True)`:
the stable descending sort on predicted count (insertion sort with a total
preorder places an element before every later element of equal or smaller
key, which is exactly CPython's stable descending order). -/
def sortByPredicted (items : List (JValue × TypeMetrics)) : List (JValue × TypeMetrics) :=
  List.insertionSort byPredDesc items

/-! ## `04_analyze_interactions.py`: `extract_interactions` (lines 50-109) -/

/-- The interaction dict built at lines 96-107 of
`04_analyze_interactions.py`; the `type` value is stored as found in the
JSON (default `'unknown'`), `distance` after `float(distance) if distance
else 0.0`. -/
structure Inter04 where
  chain1 : String
  resnum1 : String
  resname1 : String
  atom1 : String
  chain2 : String
  resnum2 : String
  resname2 : String
  atom2 : String
  type : JValue
  distance : ℚ
deriving DecidableEq

/-- The inner contact loop body (lines 79-107): skip non-dict contacts and
contacts whose partner path has fewer than 4 segments; `float(distance)` is
only called when `distance` is truthy, and a failed conversion raises. -/
def parseContact04 (chain1 resnum1 resname1 atomname1 : String) (c : JValue) :
    Except String (List Inter04) :=
  match c with
  | .obj o =>
    let itype := (jGet o "type").getD (.str "unknown")
    let dist := (jGet o "distance").getD (.num 0)
    match (jGet o "bgn_atom").getD (.str "") with
    | .str s =>
      match splitKey s with
      | chain2 :: resnum2 :: resname2 :: atomname2 :: _ =>
        if jTruthy dist then
          match pyFloat dist with
          | some q =>
            .ok [⟨chain1, resnum1, resname1, atomname1,
                  chain2, resnum2, resname2, atomname2, itype, q⟩]
          | none => .error "could not convert value to float"
        else
          .ok [⟨chain1, resnum1, resname1, atomname1,
                chain2, resnum2, resname2, atomname2, itype, 0⟩]
      | _ => .ok []
    | _ => .error "AttributeError: bgn_atom has no attribute strip"
  | _ => .ok []

/-- The outer entry loop body (lines 59-107): skip non-dict values, keys
with fewer than 4 segments, and entries without `contact`; a single
contact object is wrapped into a one-element list (lines 75-77). -/
def extractEntry04 (k : String) (v : JValue) : Except String (List Inter04) :=
  match v with
  | .obj o =>
    match splitKey k with
    | chain1 :: resnum1 :: resname1 :: atomname1 :: _ =>
      match jGet o "contact" with
      | none => .ok []
      | some c =>
        let contacts := match c with | .arr l => l.toList | x => [x]
        flatE (parseContact04 chain1 resnum1 resname1 atomname1) contacts
    | _ => .ok []
  | _ => .ok []

/-- `extract_interactions` (lines 50-109) over the decoded top-level map. -/
def extract_interactions (data : List (String × JValue)) : Except String (List Inter04) :=
  flatE (fun kv => extractEntry04 kv.1 kv.2) data

/-! ## `04_analyze_interactions.py`: `analyze_interactions` (lines 112-152)

Only the fields the claims mention are modelled (`total_interactions` and
`distance_stats`); the tally fields (`type_counts`,
`residue_pair_counts`, `residue_counts`, `unique_residue_pairs`) are
independent of them and of every claim. -/

/-- Python `min(l)` on a nonempty list (the guard `if distances` makes the
empty case unreachable; it is mapped to `0` here). -/
def listMin : List ℚ → ℚ
  | [] => 0
  | x :: xs => xs.foldl min x

/-- Python `max(l)` on a nonempty list. -/
def listMax : List ℚ → ℚ
  | [] => 0
  | x :: xs => xs.foldl max x

/-- The `distance_stats` sub-dict of lines 147-151. -/
structure DistanceStats where
  mean : ℚ
  min : ℚ
  max : ℚ
deriving DecidableEq

/-- The modelled fields of the dict returned by `analyze_interactions`. -/
structure AnalysisStats where
  total_interactions : ℕ
  distance_stats : DistanceStats
deriving DecidableEq

/-- `analyze_interactions` (lines 112-152): `distances` is the list of
distances of the records with strictly positive distance (line 139), and
each statistic falls back to `0` when that list is empty. -/
def analyze_interactions (interactions : List Inter04) : AnalysisStats :=
  let distances := (interactions.filter (fun i => decide (0 < i.distance))).map
    (fun i => i.distance)
  { total_interactions := interactions.length,
    distance_stats :=
      { mean := if distances = [] then 0 else distances.sum / (distances.length : ℚ),
        min := if distances = [] then 0 else listMin distances,
        max := if distances = [] then 0 else listMax distances } }

/-! ## Concrete sample data used by witnesses and counterexamples -/

/-- A standard amino-acid residue with a Cα atom. -/
def sampleRes : Residue := ⟨true, [("N", (0, 0, 0)), ("CA", (1, 0, 0))]⟩

/-- A second standard amino-acid residue with only a Cα atom. -/
def sampleResB : Residue := ⟨true, [("CA", (2, 0, 0))]⟩

/-- A parsed structure with one model, one chain, two residues. -/
def sampleStructure : PDBStructure := [[[sampleRes, sampleResB]]]

/-- A parsed structure with one model, one chain, one residue. -/
def sampleStructureB : PDBStructure := [[[sampleResB]]]

/-- A superimposer stand-in that always succeeds with RMS 0. -/
def okSuper : List Point → List Point → Except String ℚ := fun _ _ => .ok 0

/-! ## Claim theorems -/

/-- Unfolding `calculate_rmsd` when the library is available and both files
parse: the `try` body runs and its exception is caught by lines 119-120. -/
theorem calculate_rmsd_ok_ok (P E : PDBStructure)
    (superimpose : List Point → List Point → Except String ℚ) (atom_type : String) :
    calculate_rmsd true (.ok P) (.ok E) superimpose atom_type =
      (match alignTry P E superimpose atom_type with
       | .ok res => res
       | .error e => ⟨0, 0, none, some e⟩) := rfl

/-- Unfolding the `try` body when the truncated length is nonzero. -/
theorem alignTry_pos (P E : PDBStructure)
    (superimpose : List Point → List Point → Except String ℚ) (atom_type : String)
    (h : min (extractAtoms P atom_type).length (extractAtoms E atom_type).length ≠ 0) :
    alignTry P E superimpose atom_type =
      (match superimpose
          ((extractAtoms E atom_type).take
            (min (extractAtoms P atom_type).length (extractAtoms E atom_type).length))
          ((extractAtoms P atom_type).take
            (min (extractAtoms P atom_type).length (extractAtoms E atom_type).length)) with
       | .ok r =>
         .ok ⟨r, min (extractAtoms P atom_type).length (extractAtoms E atom_type).length,
              some atom_type, none⟩
       | .error e => .error e) := by
  unfold alignTry
  rw [if_neg h]

/-- Unfolding the `try` body when the truncated length is zero. -/
theorem alignTry_zero (P E : PDBStructure)
    (superimpose : List Point → List Point → Except String ℚ) (atom_type : String)
    (h : min (extractAtoms P atom_type).length (extractAtoms E atom_type).length = 0) :
    alignTry P E superimpose atom_type = .ok ⟨0, 0, none, some "No matching atoms"⟩ := by
  unfold alignTry
  rw [if_pos h]

/-- Claim C1: for every pair of extracted atom sequences, `calculate_rmsd`
truncates both sequences to a prefix of length
`n = min(len(predicted), len(experimental))` before any alignment, and the
alignment call and the reported `n_atoms` are computed only over those two
prefixes: the result is a function of `superimpose` applied to exactly the
two `take n` prefixes, and the success branch reports `n_atoms = n`. -/
theorem calculate_rmsd_truncates_to_min_prefixes (P E : PDBStructure)
    (superimpose : List Point → List Point → Except String ℚ) (atom_type : String)
    (h : min (extractAtoms P atom_type).length (extractAtoms E atom_type).length ≠ 0) :
    let pred_atoms := extractAtoms P atom_type
    let exp_atoms := extractAtoms E atom_type
    let n := min pred_atoms.length exp_atoms.length
    (pred_atoms.take n).length = n ∧ (exp_atoms.take n).length = n ∧
    calculate_rmsd true (.ok P) (.ok E) superimpose atom_type =
      (match superimpose (exp_atoms.take n) (pred_atoms.take n) with
       | .ok r => ⟨r, n, some atom_type, none⟩
       | .error e => ⟨0, 0, none, some e⟩) := by
  intro pred_atoms exp_atoms n
  refine ⟨?_, ?_, ?_⟩
  · rw [List.length_take]
    exact Nat.min_eq_left (Nat.min_le_left _ _)
  · rw [List.length_take]
    exact Nat.min_eq_left (Nat.min_le_right _ _)
  · rw [calculate_rmsd_ok_ok, alignTry_pos P E superimpose atom_type h]
    cases hsp : superimpose (exp_atoms.take n) (pred_atoms.take n) with
    | ok r => rfl
    | error e => rfl

/-- Witness for C1 at a concrete pair of structures with 2 and 1 Cα atoms:
the hypothesis `n ≠ 0` holds and the aligned result reports
`n_atoms = 1`. -/
theorem calculate_rmsd_truncates_to_min_prefixes_witness :
    min (extractAtoms sampleStructure "CA").length (extractAtoms sampleStructureB "CA").length ≠ 0 ∧
    calculate_rmsd true (.ok sampleStructure) (.ok sampleStructureB) okSuper "CA" =
      ⟨0, 1, some "CA", none⟩ :=
  ⟨by decide,
   (calculate_rmsd_truncates_to_min_prefixes sampleStructure sampleStructureB okSuper "CA"
     (by decide)).2.2⟩

/-- Claim C2: whenever the two extracted atom sequences give
`n_atoms = min(len, len) = 0`, `calculate_rmsd` returns the degraded dict
`{'rmsd': 0.0, 'n_atoms': 0, 'error': 'No matching atoms'}` for every
superimposer, i.e. without invoking it and without raising. -/
theorem calculate_rmsd_zero_atoms_degraded (P E : PDBStructure)
    (superimpose : List Point → List Point → Except String ℚ) (atom_type : String)
    (h : min (extractAtoms P atom_type).length (extractAtoms E atom_type).length = 0) :
    calculate_rmsd true (.ok P) (.ok E) superimpose atom_type =
      ⟨0, 0, none, some "No matching atoms"⟩ := by
  rw [calculate_rmsd_ok_ok, alignTry_zero P E superimpose atom_type h]

/-- Witness for C2 at two empty structures. -/
theorem calculate_rmsd_zero_atoms_degraded_witness :
    min (extractAtoms [] "CA").length (extractAtoms [] "CA").length = 0 ∧
    calculate_rmsd true (.ok []) (.ok []) okSuper "CA" =
      ⟨0, 0, none, some "No matching atoms"⟩ :=
  ⟨by decide, calculate_rmsd_zero_atoms_degraded [] [] okSuper "CA" (by decide)⟩

/-- Counterexample to C3: the `except Exception` clause of lines 119-120
catches both failures.  At a concrete unparseable predicted file,
`calculate_rmsd` returns the error as a result value instead of
propagating a `ParseError`, and at a concrete numerically failing
superposition it returns the error as a result value instead of
propagating a `SuperpositionError`. -/
theorem calculate_rmsd_errors_not_propagated_counterexample :
    calculate_rmsd true (.error "Invalid PDB file") (.ok sampleStructureB) okSuper "CA" =
      ⟨0, 0, none, some "Invalid PDB file"⟩ ∧
    calculate_rmsd true (.ok sampleStructureB) (.ok sampleStructureB)
        (fun _ _ => .error "SVD did not converge") "CA" =
      ⟨0, 0, none, some "SVD did not converge"⟩ := by decide

/-- Amended C3: a parse failure of either structure file, and a numerical
failure inside the superposition call, are caught by `calculate_rmsd` and
returned to the caller as the degraded result
`{'rmsd': 0.0, 'n_atoms': 0, 'error': str(e)}` rather than propagating. -/
theorem calculate_rmsd_catches_errors :
    (∀ (e : String) (pe : Except String PDBStructure) superimpose atom_type,
      calculate_rmsd true (.error e) pe superimpose atom_type = ⟨0, 0, none, some e⟩) ∧
    (∀ (e : String) (P : PDBStructure) superimpose atom_type,
      calculate_rmsd true (.ok P) (.error e) superimpose atom_type = ⟨0, 0, none, some e⟩) ∧
    (∀ (P E : PDBStructure) superimpose atom_type (e : String),
      min (extractAtoms P atom_type).length (extractAtoms E atom_type).length ≠ 0 →
      superimpose
          ((extractAtoms E atom_type).take
            (min (extractAtoms P atom_type).length (extractAtoms E atom_type).length))
          ((extractAtoms P atom_type).take
            (min (extractAtoms P atom_type).length (extractAtoms E atom_type).length)) =
        .error e →
      calculate_rmsd true (.ok P) (.ok E) superimpose atom_type = ⟨0, 0, none, some e⟩) := by
  refine ⟨fun e pe superimpose atom_type => rfl, fun e P superimpose atom_type => rfl, ?_⟩
  intro P E superimpose atom_type e h hsp
  rw [calculate_rmsd_ok_ok, alignTry_pos P E superimpose atom_type h, hsp]

/-- Witness for the amended C3 at concrete failing inputs. -/
theorem calculate_rmsd_catches_errors_witness :
    calculate_rmsd true (.error "Invalid PDB record") (.ok sampleStructureB) okSuper "CA" =
      ⟨0, 0, none, some "Invalid PDB record"⟩ ∧
    calculate_rmsd true (.ok sampleStructureB) (.error "Invalid PDB record") okSuper "CA" =
      ⟨0, 0, none, some "Invalid PDB record"⟩ ∧
    calculate_rmsd true (.ok sampleStructureB) (.ok sampleStructureB)
        (fun _ _ => .error "array must not contain infs or NaNs") "CA" =
      ⟨0, 0, none, some "array must not contain infs or NaNs"⟩ :=
  ⟨calculate_rmsd_catches_errors.1 "Invalid PDB record" (.ok sampleStructureB) okSuper "CA",
   calculate_rmsd_catches_errors.2.1 "Invalid PDB record" sampleStructureB okSuper "CA",
   calculate_rmsd_catches_errors.2.2 sampleStructureB sampleStructureB
     (fun _ _ => .error "array must not contain infs or NaNs") "CA"
     "array must not contain infs or NaNs" (by decide) rfl⟩

/-- Counterexample to C9: with the library unavailable, each
`calculate_rmsd` call returns an ordinary degraded result value (the same
shape as the non-fatal `n == 0` case) and the program continues; the
condition is handled per call as recoverable data, not surfaced as a fatal
error.  Both of `main`'s calls (`'CA'` and `'all'`) behave this way. -/
theorem calculate_rmsd_unavailable_per_call_counterexample :
    calculate_rmsd false (.error "could not parse") (.error "could not parse") okSuper "CA" =
      ⟨0, 0, none, some "BioPython not available"⟩ ∧
    calculate_rmsd false (.ok sampleStructure) (.ok sampleStructureB) okSuper "all" =
      ⟨0, 0, none, some "BioPython not available"⟩ := by decide

/-- Amended C9: when the superposition library is unavailable, every
`calculate_rmsd` call detects this before any parsing or alignment work
(the result is independent of the parse outcomes and of the superimposer)
and returns the degraded result
`{'rmsd': 0.0, 'n_atoms': 0, 'error': 'BioPython not available'}` as a
per-call recoverable value rather than raising a fatal error. -/
theorem calculate_rmsd_unavailable_returns_degraded
    (pp pe : Except String PDBStructure)
    (superimpose : List Point → List Point → Except String ℚ) (atom_type : String) :
    calculate_rmsd false pp pe superimpose atom_type =
      ⟨0, 0, none, some "BioPython not available"⟩ := rfl

/-- Membership in a per-type group: the triples of the list carrying the
given type. -/
theorem mem_typedSet {l : List Interaction06} {t : JValue} {i : Interaction06} :
    i ∈ typedSet l t ↔ i ∈ l ∧ interType i = t := by
  simp [typedSet, List.mem_filter]

/-- Intersecting the per-type groups is filtering the intersection, because
the type is part of each triple. -/
theorem typedSet_inter_eq (pred_interactions exp_interactions : List Interaction06)
    (t : JValue) :
    typedSet pred_interactions t ∩ typedSet exp_interactions t =
      (pred_interactions.toFinset ∩ exp_interactions.toFinset).filter
        (fun i => interType i = t) := by
  ext i
  simp [mem_typedSet, Finset.mem_filter]
  tauto

/-- Subtracting the per-type groups is filtering the difference. -/
theorem typedSet_sdiff_eq (pred_interactions exp_interactions : List Interaction06)
    (t : JValue) :
    typedSet pred_interactions t \ typedSet exp_interactions t =
      (pred_interactions.toFinset \ exp_interactions.toFinset).filter
        (fun i => interType i = t) := by
  ext i
  simp [mem_typedSet, Finset.mem_filter]
  tauto

/-- The type of a predicted triple is one of the grouped keys. -/
theorem interType_mem_allTypes_left {pred_interactions exp_interactions : List Interaction06}
    {x : Interaction06} (hx : x ∈ pred_interactions.toFinset) :
    interType x ∈ allTypes pred_interactions exp_interactions := by
  rw [List.mem_toFinset] at hx
  simp only [allTypes, Finset.mem_union, List.mem_toFinset, List.mem_map]
  exact Or.inl ⟨x, hx, rfl⟩

/-- The type of an experimental triple is one of the grouped keys. -/
theorem interType_mem_allTypes_right {pred_interactions exp_interactions : List Interaction06}
    {x : Interaction06} (hx : x ∈ exp_interactions.toFinset) :
    interType x ∈ allTypes pred_interactions exp_interactions := by
  rw [List.mem_toFinset] at hx
  simp only [allTypes, Finset.mem_union, List.mem_toFinset, List.mem_map]
  exact Or.inr ⟨x, hx, rfl⟩

/-- Summing the cardinalities of the type fibers of a set of triples over
any key set containing all its types gives the set's cardinality. -/
theorem sum_card_type_fibers (s : Finset Interaction06) (T : Finset JValue)
    (H : ∀ x ∈ s, interType x ∈ T) :
    ∑ t in T, (s.filter (fun i => interType i = t)).card = s.card :=
  (Finset.card_eq_sum_card_fiberwise H).symm

/-- Claim C5: the overall metrics of `compare_interactions` are the
set-theoretic statistics of the de-duplicated triple sets:
`tp = |P ∩ E|`, `fp = |P \ E|`, `fn = |E \ P|`, `precision = tp/|P|`
(0 when `P` is empty), `recall = tp/|E|` (0 when `E` is empty), and
`f1 = 2pr/(p+r)` with 0 exactly when the denominator `p + r` is 0. -/
theorem compare_interactions_overall_metrics
    (pred_interactions exp_interactions : List Interaction06) :
    let P := pred_interactions.toFinset
    let E := exp_interactions.toFinset
    let ov := (compare_interactions pred_interactions exp_interactions).overall
    ov.true_positives = (P ∩ E).card ∧
    ov.false_positives = (P \ E).card ∧
    ov.false_negatives = (E \ P).card ∧
    ov.precision = (if P = ∅ then 0 else ((P ∩ E).card : ℚ) / (P.card : ℚ)) ∧
    ov.recall' = (if E = ∅ then 0 else ((P ∩ E).card : ℚ) / (E.card : ℚ)) ∧
    ov.f1_score = (if ov.precision + ov.recall' = 0 then 0
                   else 2 * ov.precision * ov.recall' / (ov.precision + ov.recall')) := by
  intro P E ov
  have hp : 0 ≤ ov.precision := by
    show 0 ≤ (if P = ∅ then (0 : ℚ) else ((P ∩ E).card : ℚ) / (P.card : ℚ))
    split
    · exact le_refl 0
    · positivity
  have hr : 0 ≤ ov.recall' := by
    show 0 ≤ (if E = ∅ then (0 : ℚ) else ((P ∩ E).card : ℚ) / (E.card : ℚ))
    split
    · exact le_refl 0
    · positivity
  refine ⟨rfl, rfl, rfl, rfl, rfl, ?_⟩
  show (if 0 < ov.precision + ov.recall'
        then 2 * ov.precision * ov.recall' / (ov.precision + ov.recall') else 0) = _
  rcases lt_or_eq_of_le (add_nonneg hp hr) with hlt | heq
  · rw [if_pos hlt, if_neg (ne_of_gt hlt)]
  · rw [if_neg (by rw [← heq]; exact lt_irrefl 0), if_pos heq.symm]

/-- Claim C6: summing the per-type `tp` values of `compare_interactions`
over all grouped types gives the overall `tp`, and likewise for `fp` and
`fn`, because the type tag is part of every triple's identity. -/
theorem compare_interactions_per_type_sums
    (pred_interactions exp_interactions : List Interaction06) :
    let cr := compare_interactions pred_interactions exp_interactions
    (∑ t in cr.type_keys, (cr.by_type t).tp) = cr.overall.true_positives ∧
    (∑ t in cr.type_keys, (cr.by_type t).fp) = cr.overall.false_positives ∧
    (∑ t in cr.type_keys, (cr.by_type t).fn) = cr.overall.false_negatives := by
  intro cr
  refine ⟨?_, ?_, ?_⟩
  · calc ∑ t in allTypes pred_interactions exp_interactions,
          (typeMetricsOf pred_interactions exp_interactions t).tp
        = ∑ t in allTypes pred_interactions exp_interactions,
            ((pred_interactions.toFinset ∩ exp_interactions.toFinset).filter
              (fun i => interType i = t)).card :=
          Finset.sum_congr rfl (fun t _ => by
            show (typedSet pred_interactions t ∩ typedSet exp_interactions t).card = _
            rw [typedSet_inter_eq])
      _ = (pred_interactions.toFinset ∩ exp_interactions.toFinset).card :=
          sum_card_type_fibers _ _
            (fun x hx => interType_mem_allTypes_left (Finset.mem_inter.1 hx).1)
  · calc ∑ t in allTypes pred_interactions exp_interactions,
          (typeMetricsOf pred_interactions exp_interactions t).fp
        = ∑ t in allTypes pred_interactions exp_interactions,
            ((pred_interactions.toFinset \ exp_interactions.toFinset).filter
              (fun i => interType i = t)).card :=
          Finset.sum_congr rfl (fun t _ => by
            show (typedSet pred_interactions t \ typedSet exp_interactions t).card = _
            rw [typedSet_sdiff_eq])
      _ = (pred_interactions.toFinset \ exp_interactions.toFinset).card :=
          sum_card_type_fibers _ _
            (fun x hx => interType_mem_allTypes_left (Finset.mem_sdiff.1 hx).1)
  · calc ∑ t in allTypes pred_interactions exp_interactions,
          (typeMetricsOf pred_interactions exp_interactions t).fn
        = ∑ t in allTypes pred_interactions exp_interactions,
            ((exp_interactions.toFinset \ pred_interactions.toFinset).filter
              (fun i => interType i = t)).card :=
          Finset.sum_congr rfl (fun t _ => by
            show (typedSet exp_interactions t \ typedSet pred_interactions t).card = _
            rw [typedSet_sdiff_eq])
      _ = (exp_interactions.toFinset \ pred_interactions.toFinset).card :=
          sum_card_type_fibers _ _
            (fun x hx => interType_mem_allTypes_right (Finset.mem_sdiff.1 hx).1)

/-- Per-type metrics with equal predicted counts, used to exhibit the tie
behaviour of the report's ordering. -/
def tmSample : TypeMetrics := ⟨1, 1, 1, 0, 0, 0, 0, 0⟩

/-- Counterexample to C7: the report's `sorted(..., key=lambda x:
x[1]['predicted'], reverse=True)` sorts only by predicted count; CPython's
sort is stable, so two types with equal predicted counts keep the (dict
insertion, i.e. set iteration) order of the enumeration.  With the
admissible enumeration `["vdw", "hbond"]` and equal counts, the output
keeps `"vdw"` before `"hbond"` even though `"hbond" < "vdw"`
lexicographically, so ties are not broken by ascending type name. -/
theorem report_tie_order_counterexample :
    sortByPredicted [(.str "vdw", tmSample), (.str "hbond", tmSample)] =
      [(.str "vdw", tmSample), (.str "hbond", tmSample)] ∧
    strLtB "hbond" "vdw" = true ∧
    sortByPredicted [(.str "vdw", tmSample), (.str "hbond", tmSample)] ≠
      [(.str "hbond", tmSample), (.str "vdw", tmSample)] := by decide

/-- Amended C7: every output enumeration of per-type results is sorted
descending by predicted count (stably: the relative order of types with
equal predicted counts is the enumeration order of the `by_type` mapping,
which is not otherwise specified), and is a permutation of that
enumeration; no lexicographic tie-break is applied. -/
theorem report_per_type_order_sorted (items : List (JValue × TypeMetrics)) :
    List.Sorted byPredDesc (sortByPredicted items) ∧ (sortByPredicted items).Perm items :=
  ⟨List.sorted_insertionSort byPredDesc items, List.perm_insertionSort byPredDesc items⟩

/-- The contact map of the C4 scenario; `mkRat 16 5` is the decoded JSON
number `3.2` (proved equal to `3.2` in the claim theorem). -/
def c4_contact_map : List (String × JValue) :=
  [("/A/10/ALA/CA", .obj (.cons "contact"
    (.arr (.cons (.obj (.cons "bgn_atom" (.str "/B/20/GLY/CB")
      (.cons "type" (.str "hbond")
      (.cons "distance" (.num (mkRat 16 5)) .nil)))) .nil)) .nil))]

/-- The single record `extract_interactions` produces for the C4 map. -/
def c4_record : Inter04 :=
  ⟨"A", "10", "ALA", "CA", "B", "20", "GLY", "CB", .str "hbond", mkRat 16 5⟩

/-- Claim C4: the contact map
`{"/A/10/ALA/CA": {"contact": [{"bgn_atom": "/B/20/GLY/CB", "type":
"hbond", "distance": 3.2}]}}` parses to exactly one interaction:
`parse_arpeggio_interactions` gives the single triple with the
lexicographically sorted pair `("A:ALA10", "B:GLY20")` and type `"hbond"`,
and `extract_interactions` gives the single record carrying the same
residue pair (sorted the same way), type `"hbond"`, and distance `3.2`. -/
theorem parse_c4_single_interaction :
    parse_arpeggio_interactions c4_contact_map =
      .ok [("A:ALA10", "B:GLY20", .str "hbond")] ∧
    sortedPair "A:ALA10" "B:GLY20" = ("A:ALA10", "B:GLY20") ∧
    extract_interactions c4_contact_map = .ok [c4_record] ∧
    sortedPair (c4_record.chain1 ++ ":" ++ c4_record.resname1 ++ c4_record.resnum1)
        (c4_record.chain2 ++ ":" ++ c4_record.resname2 ++ c4_record.resnum2) =
      ("A:ALA10", "B:GLY20") ∧
    c4_record.type = .str "hbond" ∧
    c4_record.distance = 3.2 := by
  refine ⟨by decide, by decide, by decide, by decide, by decide, ?_⟩
  show mkRat 16 5 = 3.2
  rw [Rat.mkRat_eq_divInt, Rat.divInt_eq_div]
  norm_num

/-- `JList.toList` inverts `JList.ofList`. -/
theorem JList.toList_ofList (l : List JValue) : (JList.ofList l).toList = l := by
  induction l with
  | nil => rfl
  | cons v rest ih => simp [JList.ofList, JList.toList, ih]

/-- Removing an element whose extraction contributes nothing and raises
nothing does not change the concatenated extraction. -/
theorem flatE_middle_skip {α β : Type} (f : α → Except String (List β)) (xs ys : List α)
    (a : α) (h : f a = .ok []) :
    flatE f (xs ++ a :: ys) = flatE f (xs ++ ys) := by
  induction xs with
  | nil =>
    show flatE f (a :: ys) = flatE f ys
    rw [show flatE f (a :: ys) =
        (do let hh ← f a; let t ← flatE f ys; .ok (hh ++ t)) from rfl, h]
    cases flatE f ys with
    | ok t => rfl
    | error e => rfl
  | cons b xs ih =>
    show flatE f (b :: (xs ++ a :: ys)) = flatE f (b :: (xs ++ ys))
    rw [show flatE f (b :: (xs ++ a :: ys)) =
        (do let hh ← f b; let t ← flatE f (xs ++ a :: ys); .ok (hh ++ t)) from rfl]
    rw [show flatE f (b :: (xs ++ ys)) =
        (do let hh ← f b; let t ← flatE f (xs ++ ys); .ok (hh ++ t)) from rfl]
    rw [ih]

/-- Replacing an element by one with the same extraction does not change
the concatenated extraction. -/
theorem flatE_middle_congr {α β : Type} (f : α → Except String (List β)) (xs ys : List α)
    (a b : α) (h : f a = f b) :
    flatE f (xs ++ a :: ys) = flatE f (xs ++ b :: ys) := by
  induction xs with
  | nil =>
    show flatE f (a :: ys) = flatE f (b :: ys)
    rw [show flatE f (a :: ys) =
        (do let hh ← f a; let t ← flatE f ys; .ok (hh ++ t)) from rfl]
    rw [show flatE f (b :: ys) =
        (do let hh ← f b; let t ← flatE f ys; .ok (hh ++ t)) from rfl]
    rw [h]
  | cons x xs ih =>
    show flatE f (x :: (xs ++ a :: ys)) = flatE f (x :: (xs ++ b :: ys))
    rw [show flatE f (x :: (xs ++ a :: ys)) =
        (do let hh ← f x; let t ← flatE f (xs ++ a :: ys); .ok (hh ++ t)) from rfl]
    rw [show flatE f (x :: (xs ++ b :: ys)) =
        (do let hh ← f x; let t ← flatE f (xs ++ b :: ys); .ok (hh ++ t)) from rfl]
    rw [ih]

/-- A one-element extraction run over a contributionless element yields
nothing. -/
theorem flatE_singleton {α β : Type} (f : α → Except String (List β)) (a : α)
    (h : f a = .ok []) : flatE f [a] = .ok [] := by
  rw [show flatE f [a] =
      (do let hh ← f a; let t ← flatE f ([] : List α); .ok (hh ++ t)) from rfl, h]
  rfl

/-- The value of `parseEntry06` on an entry holding a JSON object, with the
outer match and the local bindings reduced away. -/
theorem parseEntry06_obj (k : String) (o : JObj) :
    parseEntry06 k (.obj o) =
      (match jGet o "contact" with
       | none => .ok []
       | some c =>
         match splitKey k with
         | chain1 :: resnum1 :: resname1 :: _ :: _ =>
           flatE (parseContact06 (chain1 ++ ":" ++ resname1 ++ resnum1))
             (match c with | .arr l => l.toList | x => [x])
         | _ => .ok []) := rfl

/-- The value of `parseContact06` on a contact holding a JSON object, with
the outer match and the local bindings reduced away. -/
theorem parseContact06_obj (res1 : String) (o : JObj) :
    parseContact06 res1 (.obj o) =
      (match (jGet o "bgn_atom").getD (.str "") with
       | .str s =>
         match splitKey s with
         | chain2 :: resnum2 :: resname2 :: _ :: _ =>
           .ok [((sortedPair res1 (chain2 ++ ":" ++ resname2 ++ resnum2)).1,
                 (sortedPair res1 (chain2 ++ ":" ++ resname2 ++ resnum2)).2,
                 (jGet o "type").getD (.str "unknown"))]
         | _ => .ok []
       | _ => .error "AttributeError: bgn_atom has no attribute strip") := rfl

/-- An entry whose key has fewer than 4 path segments contributes nothing
and raises nothing, whatever its value. -/
theorem parseEntry06_short_key (k : String) (v : JValue)
    (h : (splitKey k).length < 4) : parseEntry06 k v = .ok [] := by
  cases v with
  | str s => rfl
  | num q => rfl
  | jbool b => rfl
  | null => rfl
  | arr l => rfl
  | obj o =>
    rw [parseEntry06_obj]
    cases jGet o "contact" with
    | none => rfl
    | some c =>
      show ((match splitKey k with
            | chain1 :: resnum1 :: resname1 :: _ :: _ =>
              flatE (parseContact06 (chain1 ++ ":" ++ resname1 ++ resnum1))
                (match c with | .arr l => l.toList | x => [x])
            | _ => .ok []) : Except String (List Interaction06)) = .ok []
      cases hsk : splitKey k with
      | nil => rfl
      | cons a1 t1 =>
        cases t1 with
        | nil => rfl
        | cons a2 t2 =>
          cases t2 with
          | nil => rfl
          | cons a3 t3 =>
            cases t3 with
            | nil => rfl
            | cons a4 t4 =>
              rw [hsk] at h
              simp at h
              omega

/-- A contact object that both parsers skip: not a JSON object, or its
`bgn_atom` partner path (a string, possibly the default `''`) has fewer
than 4 segments. -/
def malformedContact (c : JValue) : Prop :=
  (∀ ob : JObj, c ≠ .obj ob) ∨
  ∃ (ob : JObj) (s : String), c = .obj ob ∧
    (jGet ob "bgn_atom").getD (.str "") = .str s ∧ (splitKey s).length < 4

/-- A malformed contact contributes nothing and raises nothing in the
inner loop of `parse_arpeggio_interactions`. -/
theorem parseContact06_malformed (res1 : String) (c : JValue)
    (hm : malformedContact c) : parseContact06 res1 c = .ok [] := by
  rcases hm with h | ⟨o, s, rfl, hb, hlen⟩
  · cases c with
    | str s => rfl
    | num q => rfl
    | jbool b => rfl
    | null => rfl
    | arr l => rfl
    | obj o => exact absurd rfl (h o)
  · rw [parseContact06_obj, hb]
    show ((match splitKey s with
          | chain2 :: resnum2 :: resname2 :: _ :: _ =>
            .ok [((sortedPair res1 (chain2 ++ ":" ++ resname2 ++ resnum2)).1,
                  (sortedPair res1 (chain2 ++ ":" ++ resname2 ++ resnum2)).2,
                  (jGet o "type").getD (.str "unknown"))]
          | _ => .ok []) : Except String (List Interaction06)) = .ok []
    cases hsk : splitKey s with
    | nil => rfl
    | cons a1 t1 =>
      cases t1 with
      | nil => rfl
      | cons a2 t2 =>
        cases t2 with
        | nil => rfl
        | cons a3 t3 =>
          cases t3 with
          | nil => rfl
          | cons a4 t4 =>
            rw [hsk] at hlen
            simp at hlen
            omega

/-- The value of `parseContact04` on a contact holding a JSON object, with
the outer match and the local bindings reduced away. -/
theorem parseContact04_obj (chain1 resnum1 resname1 atomname1 : String) (o : JObj) :
    parseContact04 chain1 resnum1 resname1 atomname1 (.obj o) =
      (match (jGet o "bgn_atom").getD (.str "") with
       | .str s =>
         match splitKey s with
         | chain2 :: resnum2 :: resname2 :: atomname2 :: _ =>
           if jTruthy ((jGet o "distance").getD (.num 0)) then
             match pyFloat ((jGet o "distance").getD (.num 0)) with
             | some q =>
               .ok [⟨chain1, resnum1, resname1, atomname1,
                     chain2, resnum2, resname2, atomname2,
                     (jGet o "type").getD (.str "unknown"), q⟩]
             | none => .error "could not convert value to float"
           else
             .ok [⟨chain1, resnum1, resname1, atomname1,
                   chain2, resnum2, resname2, atomname2,
                   (jGet o "type").getD (.str "unknown"), 0⟩]
         | _ => .ok []
       | _ => .error "AttributeError: bgn_atom has no attribute strip") := rfl

/-- A malformed contact contributes nothing and raises nothing in the
inner loop of `extract_interactions` either (it is skipped before the
distance conversion is reached). -/
theorem parseContact04_malformed (chain1 resnum1 resname1 atomname1 : String)
    (c : JValue) (hm : malformedContact c) :
    parseContact04 chain1 resnum1 resname1 atomname1 c = .ok [] := by
  rcases hm with h | ⟨o, s, rfl, hb, hlen⟩
  · cases c with
    | str s => rfl
    | num q => rfl
    | jbool b => rfl
    | null => rfl
    | arr l => rfl
    | obj o => exact absurd rfl (h o)
  · rw [parseContact04_obj, hb]
    show ((match splitKey s with
          | chain2 :: resnum2 :: resname2 :: atomname2 :: _ =>
            if jTruthy ((jGet o "distance").getD (.num 0)) then
              match pyFloat ((jGet o "distance").getD (.num 0)) with
              | some q =>
                .ok [⟨chain1, resnum1, resname1, atomname1,
                      chain2, resnum2, resname2, atomname2,
                      (jGet o "type").getD (.str "unknown"), q⟩]
              | none => .error "could not convert value to float"
            else
              .ok [⟨chain1, resnum1, resname1, atomname1,
                    chain2, resnum2, resname2, atomname2,
                    (jGet o "type").getD (.str "unknown"), 0⟩]
          | _ => .ok []) : Except String (List Inter04)) = .ok []
    cases hsk : splitKey s with
    | nil => rfl
    | cons a1 t1 =>
      cases t1 with
      | nil => rfl
      | cons a2 t2 =>
        cases t2 with
        | nil => rfl
        | cons a3 t3 =>
          cases t3 with
          | nil => rfl
          | cons a4 t4 =>
            rw [hsk] at hlen
            simp at hlen
            omega

/-- The value of `extractEntry04` on an entry holding a JSON object, with
the outer match and the local bindings reduced away. -/
theorem extractEntry04_obj (k : String) (o : JObj) :
    extractEntry04 k (.obj o) =
      (match splitKey k with
       | chain1 :: resnum1 :: resname1 :: atomname1 :: _ =>
         (match jGet o "contact" with
          | none => .ok []
          | some c =>
            flatE (parseContact04 chain1 resnum1 resname1 atomname1)
              (match c with | .arr l => l.toList | x => [x]))
       | _ => .ok []) := rfl

/-- An entry whose key has fewer than 4 path segments contributes nothing
and raises nothing in `extract_interactions`, whatever its value. -/
theorem extractEntry04_short_key (k : String) (v : JValue)
    (h : (splitKey k).length < 4) : extractEntry04 k v = .ok [] := by
  cases v with
  | str s => rfl
  | num q => rfl
  | jbool b => rfl
  | null => rfl
  | arr l => rfl
  | obj o =>
    rw [extractEntry04_obj]
    cases hsk : splitKey k with
    | nil => rfl
    | cons a1 t1 =>
      cases t1 with
      | nil => rfl
      | cons a2 t2 =>
        cases t2 with
        | nil => rfl
        | cons a3 t3 =>
          cases t3 with
          | nil => rfl
          | cons a4 t4 =>
            rw [hsk] at h
            simp at h
            omega

/-- When the `contact` field holds a single non-list value, the contact
loop of `parse_arpeggio_interactions` runs over the one-element wrapping
list (lines 148-150). -/
theorem parseEntry06_contact_single (k : String) (o : JObj) (c : JValue)
    (hc : jGet o "contact" = some c) (hnl : ∀ al : JList, c ≠ .arr al) :
    parseEntry06 k (.obj o) =
      (match splitKey k with
       | chain1 :: resnum1 :: resname1 :: _ :: _ =>
         flatE (parseContact06 (chain1 ++ ":" ++ resname1 ++ resnum1)) [c]
       | _ => .ok []) := by
  rw [parseEntry06_obj, hc]
  cases c with
  | str s => rfl
  | num q => rfl
  | jbool b => rfl
  | null => rfl
  | arr l => exact absurd rfl (hnl l)
  | obj ob => rfl

/-- When the `contact` field holds a single non-list value, the contact
loop of `extract_interactions` runs over the one-element wrapping list
(lines 75-77). -/
theorem extractEntry04_contact_single (k : String) (o : JObj) (c : JValue)
    (hc : jGet o "contact" = some c) (hnl : ∀ al : JList, c ≠ .arr al) :
    extractEntry04 k (.obj o) =
      (match splitKey k with
       | chain1 :: resnum1 :: resname1 :: atomname1 :: _ =>
         flatE (parseContact04 chain1 resnum1 resname1 atomname1) [c]
       | _ => .ok []) := by
  rw [extractEntry04_obj, hc]
  cases c with
  | str s => rfl
  | num q => rfl
  | jbool b => rfl
  | null => rfl
  | arr l => exact absurd rfl (hnl l)
  | obj ob => rfl

/-- An entry whose single-object contact is malformed contributes nothing
to `parse_arpeggio_interactions`. -/
theorem parseEntry06_single_malformed (k : String) (o : JObj) (c : JValue)
    (hc : jGet o "contact" = some c) (hnl : ∀ al : JList, c ≠ .arr al)
    (hm : malformedContact c) : parseEntry06 k (.obj o) = .ok [] := by
  rw [parseEntry06_contact_single k o c hc hnl]
  cases hsk : splitKey k with
  | nil => rfl
  | cons a1 t1 =>
    cases t1 with
    | nil => rfl
    | cons a2 t2 =>
      cases t2 with
      | nil => rfl
      | cons a3 t3 =>
        cases t3 with
        | nil => rfl
        | cons a4 t4 =>
          exact flatE_singleton _ c (parseContact06_malformed _ c hm)

/-- An entry whose single-object contact is malformed contributes nothing
to `extract_interactions`. -/
theorem extractEntry04_single_malformed (k : String) (o : JObj) (c : JValue)
    (hc : jGet o "contact" = some c) (hnl : ∀ al : JList, c ≠ .arr al)
    (hm : malformedContact c) : extractEntry04 k (.obj o) = .ok [] := by
  rw [extractEntry04_contact_single k o c hc hnl]
  cases hsk : splitKey k with
  | nil => rfl
  | cons a1 t1 =>
    cases t1 with
    | nil => rfl
    | cons a2 t2 =>
      cases t2 with
      | nil => rfl
      | cons a3 t3 =>
        cases t3 with
        | nil => rfl
        | cons a4 t4 =>
          exact flatE_singleton _ c (parseContact04_malformed a1 a2 a3 a4 c hm)

/-- Removing a malformed contact from an entry's contact list does not
change what `parseEntry06` extracts from that entry. -/
theorem parseEntry06_remove_malformed (k : String) (o o9 : JObj)
    (l1 l2 : List JValue) (c : JValue)
    (hc : jGet o "contact" = some (.arr (JList.ofList (l1 ++ c :: l2))))
    (hc9 : jGet o9 "contact" = some (.arr (JList.ofList (l1 ++ l2))))
    (hm : malformedContact c) :
    parseEntry06 k (.obj o) = parseEntry06 k (.obj o9) := by
  rw [parseEntry06_obj k o, parseEntry06_obj k o9, hc, hc9]
  show ((match splitKey k with
        | chain1 :: resnum1 :: resname1 :: _ :: _ =>
          flatE (parseContact06 (chain1 ++ ":" ++ resname1 ++ resnum1))
            (JList.ofList (l1 ++ c :: l2)).toList
        | _ => .ok []) : Except String (List Interaction06)) =
      ((match splitKey k with
        | chain1 :: resnum1 :: resname1 :: _ :: _ =>
          flatE (parseContact06 (chain1 ++ ":" ++ resname1 ++ resnum1))
            (JList.ofList (l1 ++ l2)).toList
        | _ => .ok []) : Except String (List Interaction06))
  cases hsk : splitKey k with
  | nil => rfl
  | cons a1 t1 =>
    cases t1 with
    | nil => rfl
    | cons a2 t2 =>
      cases t2 with
      | nil => rfl
      | cons a3 t3 =>
        cases t3 with
        | nil => rfl
        | cons a4 t4 =>
          show flatE (parseContact06 (a1 ++ ":" ++ a3 ++ a2))
              (JList.ofList (l1 ++ c :: l2)).toList =
            flatE (parseContact06 (a1 ++ ":" ++ a3 ++ a2))
              (JList.ofList (l1 ++ l2)).toList
          rw [JList.toList_ofList, JList.toList_ofList]
          exact flatE_middle_skip _ l1 l2 c (parseContact06_malformed _ c hm)

/-- Removing a malformed contact from an entry's contact list does not
change what `extractEntry04` extracts from that entry. -/
theorem extractEntry04_remove_malformed (k : String) (o o9 : JObj)
    (l1 l2 : List JValue) (c : JValue)
    (hc : jGet o "contact" = some (.arr (JList.ofList (l1 ++ c :: l2))))
    (hc9 : jGet o9 "contact" = some (.arr (JList.ofList (l1 ++ l2))))
    (hm : malformedContact c) :
    extractEntry04 k (.obj o) = extractEntry04 k (.obj o9) := by
  rw [extractEntry04_obj k o, extractEntry04_obj k o9, hc, hc9]
  show ((match splitKey k with
        | chain1 :: resnum1 :: resname1 :: atomname1 :: _ =>
          flatE (parseContact04 chain1 resnum1 resname1 atomname1)
            (JList.ofList (l1 ++ c :: l2)).toList
        | _ => .ok []) : Except String (List Inter04)) =
      ((match splitKey k with
        | chain1 :: resnum1 :: resname1 :: atomname1 :: _ =>
          flatE (parseContact04 chain1 resnum1 resname1 atomname1)
            (JList.ofList (l1 ++ l2)).toList
        | _ => .ok []) : Except String (List Inter04))
  cases hsk : splitKey k with
  | nil => rfl
  | cons a1 t1 =>
    cases t1 with
    | nil => rfl
    | cons a2 t2 =>
      cases t2 with
      | nil => rfl
      | cons a3 t3 =>
        cases t3 with
        | nil => rfl
        | cons a4 t4 =>
          show flatE (parseContact04 a1 a2 a3 a4)
              (JList.ofList (l1 ++ c :: l2)).toList =
            flatE (parseContact04 a1 a2 a3 a4)
              (JList.ofList (l1 ++ l2)).toList
          rw [JList.toList_ofList, JList.toList_ofList]
          exact flatE_middle_skip _ l1 l2 c (parseContact04_malformed a1 a2 a3 a4 c hm)

/-- Claim C8: in both `parse_arpeggio_interactions` (06) and
`extract_interactions` (04), a contact-map entry whose atom-path key has
fewer than 4 segments is skipped silently and its presence does not change
the records extracted from the remaining entries; and a contact that is
not an object or has a malformed partner path is skipped silently —
whether it sits in a contact list (removing it leaves the parse of the
whole map unchanged) or is the entry's single-object `contact` value (the
entry then contributes nothing). -/
theorem parse_skips_malformed_entries :
    (∀ (pre post : List (String × JValue)) (k : String) (v : JValue),
      (splitKey k).length < 4 →
      parse_arpeggio_interactions (pre ++ (k, v) :: post) =
        parse_arpeggio_interactions (pre ++ post)) ∧
    (∀ (pre post : List (String × JValue)) (k : String) (o o9 : JObj)
        (l1 l2 : List JValue) (c : JValue),
      jGet o "contact" = some (.arr (JList.ofList (l1 ++ c :: l2))) →
      jGet o9 "contact" = some (.arr (JList.ofList (l1 ++ l2))) →
      malformedContact c →
      parse_arpeggio_interactions (pre ++ (k, .obj o) :: post) =
        parse_arpeggio_interactions (pre ++ (k, .obj o9) :: post)) ∧
    (∀ (pre post : List (String × JValue)) (k : String) (o : JObj) (c : JValue),
      jGet o "contact" = some c → (∀ al : JList, c ≠ .arr al) →
      malformedContact c →
      parse_arpeggio_interactions (pre ++ (k, .obj o) :: post) =
        parse_arpeggio_interactions (pre ++ post)) ∧
    (∀ (pre post : List (String × JValue)) (k : String) (v : JValue),
      (splitKey k).length < 4 →
      extract_interactions (pre ++ (k, v) :: post) =
        extract_interactions (pre ++ post)) ∧
    (∀ (pre post : List (String × JValue)) (k : String) (o o9 : JObj)
        (l1 l2 : List JValue) (c : JValue),
      jGet o "contact" = some (.arr (JList.ofList (l1 ++ c :: l2))) →
      jGet o9 "contact" = some (.arr (JList.ofList (l1 ++ l2))) →
      malformedContact c →
      extract_interactions (pre ++ (k, .obj o) :: post) =
        extract_interactions (pre ++ (k, .obj o9) :: post)) ∧
    (∀ (pre post : List (String × JValue)) (k : String) (o : JObj) (c : JValue),
      jGet o "contact" = some c → (∀ al : JList, c ≠ .arr al) →
      malformedContact c →
      extract_interactions (pre ++ (k, .obj o) :: post) =
        extract_interactions (pre ++ post)) := by
  refine ⟨?_, ?_, ?_, ?_, ?_, ?_⟩
  · intro pre post k v h
    exact flatE_middle_skip _ pre post (k, v) (parseEntry06_short_key k v h)
  · intro pre post k o o9 l1 l2 c hc hc9 hm
    exact flatE_middle_congr _ pre post (k, .obj o) (k, .obj o9)
      (parseEntry06_remove_malformed k o o9 l1 l2 c hc hc9 hm)
  · intro pre post k o c hc hnl hm
    exact flatE_middle_skip _ pre post (k, .obj o)
      (parseEntry06_single_malformed k o c hc hnl hm)
  · intro pre post k v h
    exact flatE_middle_skip _ pre post (k, v) (extractEntry04_short_key k v h)
  · intro pre post k o o9 l1 l2 c hc hc9 hm
    exact flatE_middle_congr _ pre post (k, .obj o) (k, .obj o9)
      (extractEntry04_remove_malformed k o o9 l1 l2 c hc hc9 hm)
  · intro pre post k o c hc hnl hm
    exact flatE_middle_skip _ pre post (k, .obj o)
      (extractEntry04_single_malformed k o c hc hnl hm)

/-- A well-formed contact object (partner path with 4 segments). -/
def c8_good_contact : JValue :=
  .obj (.cons "bgn_atom" (.str "/B/20/GLY/CB") (.cons "type" (.str "hbond") .nil))

/-- A malformed contact object: its partner path has only 2 segments. -/
def c8_bad_contact : JValue := .obj (.cons "bgn_atom" (.str "/B/20") .nil)

/-- An entry value whose contact list contains the malformed contact
before the well-formed one. -/
def c8_obj_with : JObj :=
  .cons "contact" (.arr (JList.ofList [c8_bad_contact, c8_good_contact])) .nil

/-- The same entry value with the malformed contact removed. -/
def c8_obj_without : JObj :=
  .cons "contact" (.arr (JList.ofList [c8_good_contact])) .nil

/-- An entry value whose `contact` field is the malformed contact as a
single object rather than a list. -/
def c8_obj_single : JObj := .cons "contact" c8_bad_contact .nil

/-- Witness for C8, exercising all six parts: a 2-segment key appended to
the C4 map changes neither parser's output; removing the malformed contact
from a contact list changes neither parser's output; and an entry whose
single-object contact is malformed contributes nothing to either parser. -/
theorem parse_skips_malformed_entries_witness :
    ((splitKey "/A/10").length < 4 ∧
      parse_arpeggio_interactions (c4_contact_map ++ ("/A/10", .null) :: []) =
        parse_arpeggio_interactions (c4_contact_map ++ [])) ∧
    (parse_arpeggio_interactions ([] ++ ("/A/10/ALA/CA", .obj c8_obj_with) :: []) =
      parse_arpeggio_interactions ([] ++ ("/A/10/ALA/CA", .obj c8_obj_without) :: [])) ∧
    (parse_arpeggio_interactions ([] ++ ("/A/10/ALA/CA", .obj c8_obj_single) :: []) =
      parse_arpeggio_interactions ([] ++ [])) ∧
    (extract_interactions (c4_contact_map ++ ("/A/10", .null) :: []) =
      extract_interactions (c4_contact_map ++ [])) ∧
    (extract_interactions ([] ++ ("/A/10/ALA/CA", .obj c8_obj_with) :: []) =
      extract_interactions ([] ++ ("/A/10/ALA/CA", .obj c8_obj_without) :: [])) ∧
    (extract_interactions ([] ++ ("/A/10/ALA/CA", .obj c8_obj_single) :: []) =
      extract_interactions ([] ++ [])) :=
  ⟨⟨by decide,
    parse_skips_malformed_entries.1 c4_contact_map [] "/A/10" .null (by decide)⟩,
   parse_skips_malformed_entries.2.1 [] [] "/A/10/ALA/CA" c8_obj_with c8_obj_without
     [] [c8_good_contact] c8_bad_contact rfl rfl
     (Or.inr ⟨.cons "bgn_atom" (.str "/B/20") .nil, "/B/20", rfl, rfl, by decide⟩),
   parse_skips_malformed_entries.2.2.1 [] [] "/A/10/ALA/CA" c8_obj_single c8_bad_contact
     rfl (fun al h => JValue.noConfusion h)
     (Or.inr ⟨.cons "bgn_atom" (.str "/B/20") .nil, "/B/20", rfl, rfl, by decide⟩),
   parse_skips_malformed_entries.2.2.2.1 c4_contact_map [] "/A/10" .null (by decide),
   parse_skips_malformed_entries.2.2.2.2.1 [] [] "/A/10/ALA/CA" c8_obj_with c8_obj_without
     [] [c8_good_contact] c8_bad_contact rfl rfl
     (Or.inr ⟨.cons "bgn_atom" (.str "/B/20") .nil, "/B/20", rfl, rfl, by decide⟩),
   parse_skips_malformed_entries.2.2.2.2.2 [] [] "/A/10/ALA/CA" c8_obj_single c8_bad_contact
     rfl (fun al h => JValue.noConfusion h)
     (Or.inr ⟨.cons "bgn_atom" (.str "/B/20") .nil, "/B/20", rfl, rfl, by decide⟩)⟩

/-- Claim C10: `analyze_interactions` computes its distance statistics only
over records with strictly positive distance (removing the non-positive
records does not change them), reports mean, min and max all `0` when no
record has positive distance, and `extract_interactions` coerces an absent
or falsy `distance` field to `0.0` in every record it emits. -/
theorem analyze_distance_stats_positive_only (interactions : List Inter04) :
    ((analyze_interactions interactions).distance_stats =
      (analyze_interactions
        (interactions.filter (fun i => decide (0 < i.distance)))).distance_stats) ∧
    ((∀ i ∈ interactions, ¬ 0 < i.distance) →
      (analyze_interactions interactions).distance_stats = ⟨0, 0, 0⟩) ∧
    (∀ (chain1 resnum1 resname1 atomname1 : String) (o : JObj) (l : List Inter04),
      parseContact04 chain1 resnum1 resname1 atomname1 (.obj o) = .ok l →
      (jGet o "distance" = none ∨
        ∃ v, jGet o "distance" = some v ∧ jTruthy v = false) →
      ∀ r ∈ l, r.distance = 0) := by
  refine ⟨?_, ?_, ?_⟩
  · have hff : (interactions.filter (fun i => decide (0 < i.distance))).filter
        (fun i => decide (0 < i.distance)) =
        interactions.filter (fun i => decide (0 < i.distance)) := by
      rw [List.filter_filter]
      simp
    unfold analyze_interactions
    rw [hff]
  · intro hall
    have hnil : interactions.filter (fun i => decide (0 < i.distance)) = [] := by
      rw [List.filter_eq_nil_iff]
      intro a ha
      simpa using hall a ha
    show (analyze_interactions interactions).distance_stats = ⟨0, 0, 0⟩
    unfold analyze_interactions
    rw [hnil]
    rfl
  · intro chain1 resnum1 resname1 atomname1 o l hok hd r hr
    have hdist : jTruthy ((jGet o "distance").getD (.num 0)) = false := by
      rcases hd with hnone | ⟨v, hv, hfalse⟩
      · rw [hnone]
        rfl
      · rw [hv]
        exact hfalse
    rw [parseContact04_obj] at hok
    split at hok
    · split at hok
      · rw [hdist] at hok
        simp only [Bool.false_eq_true, if_false] at hok
        cases hok
        simp only [List.mem_singleton] at hr
        rw [hr]
      · cases hok
        simp at hr
    · simp at hok

/-- The single extracted record of the C10 witness map: the contact has no
`distance` field, so the record's distance is coerced to `0.0`. -/
def c10_record : Inter04 :=
  ⟨"A", "10", "ALA", "CA", "B", "20", "GLY", "CB", .str "hbond", 0⟩

/-- A contact object without a `distance` field. -/
def c10_contact_obj : JObj :=
  .cons "bgn_atom" (.str "/B/20/GLY/CB") (.cons "type" (.str "hbond") .nil)

/-- Witness for C10: on a list whose only record has distance `0`, all
three statistics are `0`, and a contact without a `distance` field yields
a record with distance `0`. -/
theorem analyze_distance_stats_positive_only_witness :
    (∀ i ∈ [c10_record], ¬ 0 < i.distance) ∧
    (analyze_interactions [c10_record]).distance_stats = ⟨0, 0, 0⟩ ∧
    (∀ r ∈ [c10_record], r.distance = 0) :=
  ⟨by decide,
   (analyze_distance_stats_positive_only [c10_record]).2.1 (by decide),
   (analyze_distance_stats_positive_only [c10_record]).2.2 "A" "10" "ALA" "CA"
     c10_contact_obj [c10_record] rfl (Or.inl rfl)⟩
